import Mathlib

/-!
# Verification of the attendance-backend HTTP server

Shallow embedding of the Express handlers of the attendance backend.
The repository holds several near-duplicate revisions of the same server:

* `src/index.js`            — modelled by the `indexJs*` definitions;
* `src/unnamed/part_000`    — modelled by the `part000*` definitions;
* `src/unnamed/part_001`, first document (ESM server with once-per-day
  logic) — modelled by the `part001*` definitions;
* `src/unnamed/part_001`, second document (CommonJS server with
  `requireAdmin` middleware and `/api/create-student`) — modelled by the
  `revB*` definitions;
* `src/unnamed/part_002`    — modelled by the `part002*` definitions.

The remote record/blob store is an external collaborator: it is modelled
as explicit state (a list of rows) plus oracle arguments for the
success/failure of each remote call the handler inspects.  Request-body
fields are `Option String`; JavaScript truthiness (`!x`) is modelled by
`jsTruthy`.  Exceptions thrown by library calls other than the ones the
source explicitly checks are not modelled.
-/

/-- JavaScript truthiness of a possibly-absent string field:
`undefined` and the empty string are falsy, everything else truthy. -/
def jsTruthy : Option String → Bool
  | none => false
  | some s => !(s == "")

/-- The JavaScript idiom of chained logical-or over possibly-absent
strings with an empty-string fallback: the first truthy operand, or the
empty string. Used by `requireAdmin`
(`src/unnamed/part_001` line 229). -/
def jsOrEmpty (a b : Option String) : String :=
  if jsTruthy a then a.getD "" else if jsTruthy b then b.getD "" else ""

/-- Lexicographic comparison of character lists by code point.  Models
the ordering the remote store applies to ISO-8601 timestamp strings (on such
strings, lexicographic order agrees with chronological order). -/
def charListLe : List Char → List Char → Bool
  | [], _ => true
  | _ :: _, [] => false
  | a :: as, b :: bs =>
      if a.toNat < b.toNat then true
      else if b.toNat < a.toNat then false
      else charListLe as bs

/-- String comparison a-below-b, as the store compares `created_at`
bounds. -/
def strLe (a b : String) : Bool :=
  charListLe a.toList b.toList

/-- Upper-case hexadecimal digit, for percent-encoding. -/
def hexUpper (n : Nat) : Char :=
  if n < 10 then Char.ofNat (48 + n) else Char.ofNat (55 + n)

/-- Characters `encodeURIComponent` leaves unescaped:
letters, digits, hyphen, underscore, dot, bang, tilde, star,
apostrophe and parentheses. -/
def isUriUnescaped (c : Char) : Bool :=
  (65 ≤ c.toNat && c.toNat ≤ 90) ||
  (97 ≤ c.toNat && c.toNat ≤ 122) ||
  (48 ≤ c.toNat && c.toNat ≤ 57) ||
  c.toNat ∈ [45, 95, 46, 33, 126, 42, 39, 40, 41]

/-- The UTF-8 bytes of a code point. -/
def utf8Bytes (n : Nat) : List Nat :=
  if n < 128 then [n]
  else if n < 2048 then [192 + n / 64, 128 + n % 64]
  else if n < 65536 then [224 + n / 4096, 128 + (n / 64) % 64, 128 + n % 64]
  else [240 + n / 262144, 128 + (n / 4096) % 64, 128 + (n / 64) % 64, 128 + n % 64]

/-- Percent-encoding of one byte, e.g. `%2F` (`%` is code point 37). -/
def pctByte (b : Nat) : List Char :=
  [Char.ofNat 37, hexUpper (b / 16), hexUpper (b % 16)]

/-- Model of JavaScript `encodeURIComponent` on one character. -/
def encChar (c : Char) : List Char :=
  if isUriUnescaped c then [c]
  else ((utf8Bytes c.toNat).map pctByte).flatten

/-- Model of JavaScript `encodeURIComponent`: unescaped characters kept,
every other character replaced by the percent-encoding of its UTF-8
bytes. -/
def encodeURIComponent (s : String) : String :=
  String.mk ((s.toList.map encChar).flatten)

/-- The relevant shape of a JSON response: HTTP status plus the `ok`,
`error` and `message` fields of the body. -/
structure JsonResp where
  status : Nat
  ok : Bool
  error : Option String
  message : Option String
  deriving Repr, DecidableEq

/-- A row of the `attendance` table as inserted by the ESM revisions
(`student_id`, `lecturer`, `course`; `created_at` assigned by the
store). -/
structure AttendanceRecord where
  student_id : String
  lecturer : String
  course : String
  created_at : String
  deriving Repr, DecidableEq

/-- A row of the `attendance` table as inserted by the CommonJS revision
(`src/unnamed/part_001`, second document): `student_id`, `date`,
`status`, `scanned_by`. -/
structure RevBAttendanceRecord where
  student_id : String
  date : String
  status : String
  scanned_by : Option String
  deriving Repr, DecidableEq

/-- Body of a `POST /api/attendance` request (JSON fields, each possibly
absent). -/
structure AttReq where
  student_id : Option String
  lecturer : Option String
  course : Option String
  admin_pin : Option String
  deriving Repr, DecidableEq

/-- The `POST /api/attendance` handler of `src/index.js`
(lines 112–134): validate
`student_id`, check the admin pin (fails closed when `ADMIN_PIN` is
falsy), then insert `{student_id, lecturer, course}` with destructuring
defaults to "Unknown".  No duplicate check.  Returns the JSON response
and the new table state; `insertErr` is the answer of the store to the
insert. -/
def indexJsAttendancePost (ADMIN_PIN : Option String) (now : String)
    (state : List AttendanceRecord) (req : AttReq) (insertErr : Option String) :
    JsonResp × List AttendanceRecord :=
  if !(jsTruthy req.student_id) then
    (⟨400, false, some "Missing student_id", none⟩, state)
  else if !(jsTruthy ADMIN_PIN) || !(jsTruthy req.admin_pin) || !(req.admin_pin == ADMIN_PIN) then
    (⟨403, false, some "Forbidden: invalid admin pin", none⟩, state)
  else
    match insertErr with
    | some m => (⟨500, false, some m, none⟩, state)
    | none =>
        (⟨200, true, none, none⟩,
          { student_id := req.student_id.getD "",
            lecturer := req.lecturer.getD "Unknown",
            course := req.course.getD "Unknown",
            created_at := now } :: state)

/-- The duplicate query of `src/unnamed/part_001` (first document,
lines 118–123): rows with the same `student_id` and
`created_at >= today` (a date-string lower bound, no upper bound). -/
def part001ExistingToday (today sid : String) (state : List AttendanceRecord) :
    List AttendanceRecord :=
  state.filter fun r => r.student_id == sid && strLe today r.created_at

/-- The `POST /api/attendance` handler of `src/unnamed/part_001` (first
document, lines 106–141): validate `student_id`, check the admin pin
(fails closed), query the rows of today for the student, answer
`{ok:false, error:"Attendance already taken today"}` with HTTP 200 when
a row exists, otherwise insert with "Unknown" defaults. -/
def part001AttendancePost (ADMIN_PIN : Option String) (today now : String)
    (state : List AttendanceRecord) (req : AttReq)
    (checkErr insertErr : Option String) :
    JsonResp × List AttendanceRecord :=
  if !(jsTruthy req.student_id) then
    (⟨400, false, some "Missing student_id", none⟩, state)
  else if !(jsTruthy ADMIN_PIN) || !(jsTruthy req.admin_pin) || !(req.admin_pin == ADMIN_PIN) then
    (⟨403, false, some "Forbidden: invalid admin pin", none⟩, state)
  else
    match checkErr with
    | some m => (⟨500, false, some m, none⟩, state)
    | none =>
        if (part001ExistingToday today (req.student_id.getD "") state).length > 0 then
          (⟨200, false, some "Attendance already taken today", none⟩, state)
        else
          match insertErr with
          | some m => (⟨500, false, some m, none⟩, state)
          | none =>
              (⟨200, true, none, none⟩,
                { student_id := req.student_id.getD "",
                  lecturer := req.lecturer.getD "Unknown",
                  course := req.course.getD "Unknown",
                  created_at := now } :: state)

/-- The duplicate query of `src/unnamed/part_000` (lines 139–147): rows
with the same `student_id`, `course` and `lecturer` whose `created_at`
lies between the start and end of today. -/
def part000ExistingToday (startOfDay endOfDay sid lecturer course : String)
    (state : List AttendanceRecord) : List AttendanceRecord :=
  state.filter fun r =>
    r.student_id == sid && r.course == course && r.lecturer == lecturer &&
    strLe startOfDay r.created_at && strLe r.created_at endOfDay

/-- The `POST /api/attendance` handler of `src/unnamed/part_000`
(lines 119–177):
requires `student_id`, `lecturer` AND `course` (no defaults), compares
`admin_pin !== ADMIN_PIN` directly, scopes the duplicate check to
(student, course, lecturer, day). -/
def part000AttendancePost (ADMIN_PIN : Option String) (startOfDay endOfDay now : String)
    (state : List AttendanceRecord) (req : AttReq)
    (checkErr insertErr : Option String) :
    JsonResp × List AttendanceRecord :=
  if !(jsTruthy req.student_id) || !(jsTruthy req.lecturer) || !(jsTruthy req.course) then
    (⟨400, false, some "Missing required fields", none⟩, state)
  else if !(req.admin_pin == ADMIN_PIN) then
    (⟨403, false, some "Invalid admin PIN", none⟩, state)
  else
    match checkErr with
    | some m => (⟨500, false, some m, none⟩, state)
    | none =>
        if (part000ExistingToday startOfDay endOfDay (req.student_id.getD "")
            (req.lecturer.getD "") (req.course.getD "") state).length > 0 then
          (⟨200, false, some "Attendance already taken for this course today", none⟩, state)
        else
          match insertErr with
          | some m => (⟨500, false, some m, none⟩, state)
          | none =>
              (⟨200, true, none, none⟩,
                { student_id := req.student_id.getD "",
                  lecturer := req.lecturer.getD "",
                  course := req.course.getD "",
                  created_at := now } :: state)

/-- The `POST /api/attendance` handler of `src/unnamed/part_002`
(lines 117–132):
validate `student_id` and insert directly — no admin-pin check and no
duplicate check. -/
def part002AttendancePost (now : String)
    (state : List AttendanceRecord) (req : AttReq) (insertErr : Option String) :
    JsonResp × List AttendanceRecord :=
  if !(jsTruthy req.student_id) then
    (⟨400, false, some "Missing student_id", none⟩, state)
  else
    match insertErr with
    | some m => (⟨500, false, some m, none⟩, state)
    | none =>
        (⟨200, true, none, none⟩,
          { student_id := req.student_id.getD "",
            lecturer := req.lecturer.getD "Unknown",
            course := req.course.getD "Unknown",
            created_at := now } :: state)

/-- Body of a `POST /api/attendance` request to the CommonJS revision:
the admin secret may arrive in the `x-admin-secret` header or the
`admin_secret` body field. -/
structure RevBAttReq where
  student_id : Option String
  scanned_by : Option String
  headerSecret : Option String
  bodySecret : Option String
  deriving Repr, DecidableEq

/-- The `requireAdmin` middleware of `src/unnamed/part_001` (second
document, lines 228–232): the effective secret is
the header secret when truthy, else the body secret when truthy, else
the empty string; it passes iff that equals `ADMIN_SECRET`. -/
def requireAdminPasses (ADMIN_SECRET : String) (headerSecret bodySecret : Option String) :
    Bool :=
  jsOrEmpty headerSecret bodySecret == ADMIN_SECRET

/-- The `POST /api/attendance` handler of `src/unnamed/part_001`
(second document, lines 286–314), composed with its `requireAdmin`
middleware: a failed
secret yields HTTP 401 before any body validation; a duplicate
(student, date) row yields `{ok:true, message:"Already recorded"}` with
HTTP 200; otherwise a `{student_id, date, status:"Present", scanned_by}`
row is inserted. -/
def revBAttendancePost (ADMIN_SECRET : String) (today : String)
    (state : List RevBAttendanceRecord) (req : RevBAttReq) (insertErr : Option String) :
    JsonResp × List RevBAttendanceRecord :=
  if !(requireAdminPasses ADMIN_SECRET req.headerSecret req.bodySecret) then
    (⟨401, false, some "Unauthorized", none⟩, state)
  else if !(jsTruthy req.student_id) then
    (⟨400, false, some "Missing student_id", none⟩, state)
  else
    if (state.filter fun r => r.student_id == req.student_id.getD "" && r.date == today).length > 0 then
      (⟨200, true, none, some "Already recorded"⟩, state)
    else
      match insertErr with
      | some m => (⟨500, false, some m, none⟩, state)
      | none =>
          (⟨200, true, none, none⟩,
            { student_id := req.student_id.getD "",
              date := today,
              status := "Present",
              scanned_by := req.scanned_by } :: state)

/-- The body of a response of the HTML `GET /api/attendance/mark`
endpoint, identified by which page the source sends. -/
inductive MarkBody where
  | missingId
  | confirmForm
  | checkError
  | alreadyTaken
  | insertError
  | recorded
  deriving Repr, DecidableEq

/-- An HTML response: HTTP status plus which page was sent. -/
structure MarkResult where
  status : Nat
  body : MarkBody
  deriving Repr, DecidableEq

/-- The `GET /api/attendance/mark` handler of `src/index.js`
(lines 139–178):
validate `student_id`, show the confirmation form when the pin is absent
or wrong, otherwise insert
`{student_id, lecturer:"external-scanner", course:"Unknown"}` directly —
no duplicate check — and send the HTML confirmation. -/
def indexJsAttendanceMark (ADMIN_PIN : Option String) (now : String)
    (state : List AttendanceRecord) (student_id pin : Option String)
    (insertErr : Option String) : MarkResult × List AttendanceRecord :=
  if !(jsTruthy student_id) then
    (⟨400, .missingId⟩, state)
  else if !(jsTruthy pin) || !(pin == ADMIN_PIN) then
    (⟨200, .confirmForm⟩, state)
  else
    match insertErr with
    | some _ => (⟨500, .insertError⟩, state)
    | none =>
        (⟨200, .recorded⟩,
          { student_id := student_id.getD "",
            lecturer := "external-scanner",
            course := "Unknown",
            created_at := now } :: state)

/-- The `GET /api/attendance/mark` handler of `src/unnamed/part_001`
(first document, lines 145–192): like the `src/index.js` variant but
with the same (student, today) duplicate query as the POST handler of
that file, sending an
"already taken" HTML page without inserting when a row exists. -/
def part001AttendanceMark (ADMIN_PIN : Option String) (today now : String)
    (state : List AttendanceRecord) (student_id pin : Option String)
    (checkErr insertErr : Option String) : MarkResult × List AttendanceRecord :=
  if !(jsTruthy student_id) then
    (⟨400, .missingId⟩, state)
  else if !(jsTruthy pin) || !(pin == ADMIN_PIN) then
    (⟨200, .confirmForm⟩, state)
  else
    match checkErr with
    | some _ => (⟨500, .checkError⟩, state)
    | none =>
        if (part001ExistingToday today (student_id.getD "") state).length > 0 then
          (⟨200, .alreadyTaken⟩, state)
        else
          match insertErr with
          | some _ => (⟨500, .insertError⟩, state)
          | none =>
              (⟨200, .recorded⟩,
                { student_id := student_id.getD "",
                  lecturer := "external-scanner",
                  course := "Unknown",
                  created_at := now } :: state)

/-- The environment variables the servers read at startup. -/
structure EnvConfig where
  SUPABASE_URL : Option String
  SUPABASE_KEY : Option String
  FRONTEND_URL : Option String
  ADMIN_PIN : Option String
  deriving Repr, DecidableEq

/-- The frontend URL computed at startup: the environment value (empty
string when absent) with one trailing slash dropped by a regex
replace. -/
def envFrontendUrl (e : EnvConfig) : String :=
  let raw := e.FRONTEND_URL.getD ""
  if raw.toList.getLast? == some (Char.ofNat 47) then String.mk raw.toList.dropLast
  else raw

/-- Startup of `src/index.js` (lines 15–27): exit code 1 when
`SUPABASE_URL`, `SUPABASE_KEY` or the processed `FRONTEND_URL` is falsy;
`ADMIN_PIN` is read but never checked.  `none` means the process goes on
to serve requests. -/
def indexJsStartup (e : EnvConfig) : Option Nat :=
  if !(jsTruthy e.SUPABASE_URL) || !(jsTruthy e.SUPABASE_KEY) then some 1
  else if envFrontendUrl e == "" then some 1
  else none

/-- Startup of `src/unnamed/part_000` (lines 14–22): exit code 1 when any
of `SUPABASE_URL`, `SUPABASE_KEY`, the processed `FRONTEND_URL` or
`ADMIN_PIN` is falsy. -/
def part000Startup (e : EnvConfig) : Option Nat :=
  if !(jsTruthy e.SUPABASE_URL) || !(jsTruthy e.SUPABASE_KEY) ||
     envFrontendUrl e == "" || !(jsTruthy e.ADMIN_PIN) then some 1
  else none

/-- A `students` row as returned by the insert of the store. -/
structure StudentRow where
  id : String
  name : String
  username : String
  email : String
  matric_number : String
  deriving Repr, DecidableEq

/-- The student payload of a registration response: the inserted row
merged with the derived URLs (and, in some revisions, the scan URL). -/
structure StudentOut where
  row : StudentRow
  photo_url : Option String
  qr_code_url : Option String
  scanUrl : Option String
  deriving Repr, DecidableEq

/-- Body of a `POST /api/student` request: the four text fields and
whether a photo file was attached. -/
structure RegReq where
  name : Option String
  username : Option String
  email : Option String
  matric_number : Option String
  hasPhoto : Bool
  deriving Repr, DecidableEq

/-- Outcomes of the remote calls a registration handler makes: the
student insert, the photo upload, the public-URL lookups and the QR
upload. -/
structure RegStore where
  insertRes : Except String StudentRow
  photoUploadErr : Option String
  photoPublicUrl : Option String
  qrUploadErr : Option String
  qrPublicUrl : Option String
  deriving Repr

/-- Result of a registration request: the JSON response (status, `ok`,
`error`, student payload) together with the observable effects — whether
the student insert was attempted and which text was handed to the QR
encoder. -/
structure RegResult where
  status : Nat
  ok : Bool
  error : Option String
  student : Option StudentOut
  insertAttempted : Bool
  qrText : Option String
  deriving Repr, DecidableEq

/-- The `POST /api/student` handler of `src/index.js` (lines 44–97):
validate the
four fields, insert (500 on store error), soft photo upload (URL only
when the upload did not error), QR text
`FRONTEND_URL/scan?id=<encoded id>`, fatal QR upload (500), respond with
the merged student payload including `scanUrl`. -/
def indexJsStudentPost (FRONTEND_URL : String) (req : RegReq) (st : RegStore) :
    RegResult :=
  if !(jsTruthy req.name) || !(jsTruthy req.username) ||
     !(jsTruthy req.email) || !(jsTruthy req.matric_number) then
    ⟨400, false, some "Missing required fields", none, false, none⟩
  else
    match st.insertRes with
    | .error m => ⟨500, false, some m, none, true, none⟩
    | .ok student =>
        let photo_url : Option String :=
          if req.hasPhoto then
            (if st.photoUploadErr.isNone then st.photoPublicUrl else none)
          else none
        let scanUrl := FRONTEND_URL ++ "/scan?id=" ++ encodeURIComponent student.id
        if st.qrUploadErr.isSome then
          ⟨500, false, some "Failed to upload QR code", none, true, some scanUrl⟩
        else
          ⟨200, true, none,
            some ⟨student, photo_url, st.qrPublicUrl, some scanUrl⟩,
            true, some scanUrl⟩

/-- The `POST /api/student` handler of `src/unnamed/part_001` (first
document, lines 45–89): same sequence as the `src/index.js` handler — soft photo
upload, URL-encoded deep-link QR text, fatal QR upload. -/
def part001StudentPost (FRONTEND_URL : String) (req : RegReq) (st : RegStore) :
    RegResult :=
  if !(jsTruthy req.name) || !(jsTruthy req.username) ||
     !(jsTruthy req.email) || !(jsTruthy req.matric_number) then
    ⟨400, false, some "Missing required fields", none, false, none⟩
  else
    match st.insertRes with
    | .error m => ⟨500, false, some m, none, true, none⟩
    | .ok student =>
        let photo_url : Option String :=
          if req.hasPhoto then
            (if st.photoUploadErr.isNone then st.photoPublicUrl else none)
          else none
        let scanUrl := FRONTEND_URL ++ "/scan?id=" ++ encodeURIComponent student.id
        if st.qrUploadErr.isSome then
          ⟨500, false, some "Failed to upload QR code", none, true, some scanUrl⟩
        else
          ⟨200, true, none,
            some ⟨student, photo_url, st.qrPublicUrl, some scanUrl⟩,
            true, some scanUrl⟩

/-- The `POST /api/student` handler of `src/unnamed/part_000`
(lines 44–101): the
photo-upload error is never inspected (the public URL is stored even if
the upload failed), the QR text is the deep link WITHOUT
`encodeURIComponent`, and the QR-upload error is ignored as well — the
request succeeds regardless. -/
def part000StudentPost (FRONTEND_URL : String) (req : RegReq) (st : RegStore) :
    RegResult :=
  if !(jsTruthy req.name) || !(jsTruthy req.username) ||
     !(jsTruthy req.email) || !(jsTruthy req.matric_number) then
    ⟨400, false, some "Missing required fields", none, false, none⟩
  else
    match st.insertRes with
    | .error m => ⟨500, false, some m, none, true, none⟩
    | .ok student =>
        let photo_url : Option String :=
          if req.hasPhoto then st.photoPublicUrl else none
        let scanUrl := FRONTEND_URL ++ "/scan?id=" ++ student.id
        ⟨200, true, none,
          some ⟨student, photo_url, st.qrPublicUrl, none⟩,
          true, some scanUrl⟩

/-- Model of `JSON.stringify({ id: v })` for a string id containing no
characters JSON would escape. -/
def jsonIdPayload (id : String) : String :=
  "\x7b\"id\":\"" ++ id ++ "\"\x7d"

/-- The `POST /api/student` handler of `src/unnamed/part_002`
(lines 41–92): soft
photo upload (error inspected), QR text `JSON.stringify({id})`, QR-upload
error ignored, respond with the merged payload (no scan URL field). -/
def part002StudentPost (req : RegReq) (st : RegStore) : RegResult :=
  if !(jsTruthy req.name) || !(jsTruthy req.username) ||
     !(jsTruthy req.email) || !(jsTruthy req.matric_number) then
    ⟨400, false, some "Missing required fields: name, username, email, matric_number", none, false, none⟩
  else
    match st.insertRes with
    | .error m => ⟨500, false, some m, none, true, none⟩
    | .ok student =>
        let photo_url : Option String :=
          if req.hasPhoto then
            (if st.photoUploadErr.isNone then st.photoPublicUrl else none)
          else none
        let qrPayload := jsonIdPayload student.id
        ⟨200, true, none,
          some ⟨student, photo_url, st.qrPublicUrl, none⟩,
          true, some qrPayload⟩

/-- Outcomes of the remote calls of `/api/create-student`
(`src/unnamed/part_001`, second document): the insert, and the two
`uploadToStorage` calls, which THROW on failure. -/
structure RevBRegStore where
  insertRes : Except String StudentRow
  photoUpload : Except String String
  qrUpload : Except String String
  deriving Repr

/-- The `POST /api/create-student` handler of `src/unnamed/part_001`
(second document, lines 240–283): validate, insert (throw → 500), photo upload
via `uploadToStorage` (throw → 500), QR payload
`attendance://<studentId>` fetched from a remote QR service, QR upload
(throw → 500), respond with the merged payload. -/
def revBCreateStudent (req : RegReq) (st : RevBRegStore) : RegResult :=
  if !(jsTruthy req.name) || !(jsTruthy req.username) ||
     !(jsTruthy req.matric_number) || !(jsTruthy req.email) then
    ⟨400, false, some "Missing fields", none, false, none⟩
  else
    match st.insertRes with
    | .error m => ⟨500, false, some m, none, true, none⟩
    | .ok student =>
        match (if req.hasPhoto then st.photoUpload.map some else .ok none) with
        | .error m => ⟨500, false, some m, none, true, none⟩
        | .ok photo_url =>
            let qrPayload := "attendance://" ++ student.id
            match st.qrUpload with
            | .error m => ⟨500, false, some m, none, true, some qrPayload⟩
            | .ok qrUrl =>
                ⟨200, true, none,
                  some ⟨student, photo_url, some qrUrl, none⟩,
                  true, some qrPayload⟩

/-- The scan-target shapes named by the specification: the deep link
`<frontend-base>/scan?id=<URL-encoded id>` or the raw JSON payload
`JSON.stringify({id})`.  Written from the words of the spec, to be
compared
with what the handlers actually encode. -/
def specScanTarget (frontendBase s id : String) : Bool :=
  s == frontendBase ++ "/scan?id=" ++ encodeURIComponent id ||
  s == jsonIdPayload id

/-- Absence (`undefined`) is falsy. -/
theorem jsTruthy_none : jsTruthy none = false := rfl

/-- C9: in `src/index.js`, when `ADMIN_PIN` is absent, every
`POST /api/attendance` request carrying a student identifier gets
HTTP 403 and inserts nothing — no supplied credential can authorize the
insert (the check fails closed). -/
theorem c9_adminPinAbsent_failsClosed (now : String) (state : List AttendanceRecord)
    (req : AttReq) (insertErr : Option String)
    (h : jsTruthy req.student_id = true) :
    indexJsAttendancePost none now state req insertErr =
      (⟨403, false, some "Forbidden: invalid admin pin", none⟩, state) := by
  simp [indexJsAttendancePost, h, jsTruthy_none]

/-- Witness for C9 at a concrete request: even a nonempty pin is
rejected when `ADMIN_PIN` is unset. -/
theorem c9_adminPinAbsent_failsClosed_witness :
    indexJsAttendancePost none "2026-10-12T09:00:00" []
      ⟨some "s1", none, none, some "anything"⟩ none =
      (⟨403, false, some "Forbidden: invalid admin pin", none⟩, []) :=
  c9_adminPinAbsent_failsClosed _ _ _ _ (by decide)

/-- C10 as stated is false: in the CommonJS revision of
`src/unnamed/part_001`, the `requireAdmin` middleware runs before the
handler, so a request with NO student identifier but a wrong admin
secret receives HTTP 401, not 400. -/
theorem c10_counterexample :
    (revBAttendancePost "myattendancesecret2025" "2026-10-12" []
        ⟨none, none, none, some "wrong"⟩ none).1.status = 401 ∧
    (401 : Nat) ≠ 400 := by
  decide

/-- C10 amended: in `src/index.js`, in `src/unnamed/part_000`,
the first revision of `part_001` and `part_002`, the
missing-`student_id` check precedes any credential check, so such a
request gets 400 regardless of the credential; in the second revision of
`part_001` the admin
middleware runs first, so any request with a failing secret gets 401. -/
theorem c10_amended :
    (∀ (pin : Option String) (now : String) (state : List AttendanceRecord)
        (req : AttReq) (e : Option String),
       jsTruthy req.student_id = false →
       (indexJsAttendancePost pin now state req e).1.status = 400) ∧
    (∀ (pin : Option String) (today now : String) (state : List AttendanceRecord)
        (req : AttReq) (cErr iErr : Option String),
       jsTruthy req.student_id = false →
       (part001AttendancePost pin today now state req cErr iErr).1.status = 400) ∧
    (∀ (pin : Option String) (s e now : String) (state : List AttendanceRecord)
        (req : AttReq) (cErr iErr : Option String),
       jsTruthy req.student_id = false →
       (part000AttendancePost pin s e now state req cErr iErr).1.status = 400) ∧
    (∀ (now : String) (state : List AttendanceRecord) (req : AttReq) (iErr : Option String),
       jsTruthy req.student_id = false →
       (part002AttendancePost now state req iErr).1.status = 400) ∧
    (∀ (secret today : String) (state : List RevBAttendanceRecord)
        (req : RevBAttReq) (iErr : Option String),
       requireAdminPasses secret req.headerSecret req.bodySecret = false →
       (revBAttendancePost secret today state req iErr).1.status = 401) := by
  refine ⟨?_, ?_, ?_, ?_, ?_⟩
  · intro pin now state req e h
    simp [indexJsAttendancePost, h]
  · intro pin today now state req cErr iErr h
    simp [part001AttendancePost, h]
  · intro pin s e now state req cErr iErr h
    simp [part000AttendancePost, h]
  · intro now state req iErr h
    simp [part002AttendancePost, h]
  · intro secret today state req iErr h
    simp [revBAttendancePost, h]

/-- Witness for C10 amended, instantiating each conjunct at a concrete
request. -/
theorem c10_amended_witness :
    (indexJsAttendancePost (some "1234") "t" [] ⟨none, none, none, some "1234"⟩ none).1.status = 400 ∧
    (part001AttendancePost (some "1234") "d" "t" [] ⟨none, none, none, some "1234"⟩ none none).1.status = 400 ∧
    (part000AttendancePost (some "1234") "a" "b" "t" [] ⟨none, some "L", some "C", some "1234"⟩ none none).1.status = 400 ∧
    (part002AttendancePost "t" [] ⟨none, none, none, none⟩ none).1.status = 400 ∧
    (revBAttendancePost "sec" "d" [] ⟨none, none, none, some "bad"⟩ none).1.status = 401 :=
  ⟨c10_amended.1 _ _ _ _ _ (by decide),
   c10_amended.2.1 _ _ _ _ _ _ _ (by decide),
   c10_amended.2.2.1 _ _ _ _ _ _ _ _ (by decide),
   c10_amended.2.2.2.1 _ _ _ _ (by decide),
   c10_amended.2.2.2.2 _ _ _ _ _ (by decide)⟩

/-- C2 as stated is false: in the CommonJS revision of
`src/unnamed/part_001`, a request carrying a student identifier whose
supplied secret differs from the configured `ADMIN_SECRET` is answered
with HTTP 401 (by `requireAdmin`), not 403. -/
theorem c2_counterexample :
    (revBAttendancePost "myattendancesecret2025" "2026-10-12" []
        ⟨some "stu-7", none, none, some "wrong-pin"⟩ none).1.status = 401 ∧
    (revBAttendancePost "myattendancesecret2025" "2026-10-12" []
        ⟨some "stu-7", none, none, some "wrong-pin"⟩ none).2 = [] ∧
    (401 : Nat) ≠ 403 := by
  decide

/-- C2 amended: a wrong credential yields 403 with no insert in
`src/index.js`, the first revision of `part_001` and `part_000`; it
yields 401 with no insert in the second revision of `part_001`; and the
handler of `part_002` performs no credential check at all — it inserts whatever the
supplied `admin_pin` is. -/
theorem c2_amended :
    (∀ (pin : Option String) (now : String) (state : List AttendanceRecord)
        (req : AttReq) (e : Option String),
       jsTruthy req.student_id = true → ¬ req.admin_pin = pin →
       indexJsAttendancePost pin now state req e =
         (⟨403, false, some "Forbidden: invalid admin pin", none⟩, state)) ∧
    (∀ (pin : Option String) (today now : String) (state : List AttendanceRecord)
        (req : AttReq) (cErr iErr : Option String),
       jsTruthy req.student_id = true → ¬ req.admin_pin = pin →
       part001AttendancePost pin today now state req cErr iErr =
         (⟨403, false, some "Forbidden: invalid admin pin", none⟩, state)) ∧
    (∀ (pin : Option String) (s e now : String) (state : List AttendanceRecord)
        (req : AttReq) (cErr iErr : Option String),
       jsTruthy req.student_id = true → jsTruthy req.lecturer = true →
       jsTruthy req.course = true → ¬ req.admin_pin = pin →
       part000AttendancePost pin s e now state req cErr iErr =
         (⟨403, false, some "Invalid admin PIN", none⟩, state)) ∧
    (∀ (secret today : String) (state : List RevBAttendanceRecord)
        (req : RevBAttReq) (iErr : Option String),
       ¬ jsOrEmpty req.headerSecret req.bodySecret = secret →
       revBAttendancePost secret today state req iErr =
         (⟨401, false, some "Unauthorized", none⟩, state)) ∧
    (∀ (now : String) (state : List AttendanceRecord) (req : AttReq),
       jsTruthy req.student_id = true →
       part002AttendancePost now state req none =
         (⟨200, true, none, none⟩,
           { student_id := req.student_id.getD "",
             lecturer := req.lecturer.getD "Unknown",
             course := req.course.getD "Unknown",
             created_at := now } :: state)) := by
  refine ⟨?_, ?_, ?_, ?_, ?_⟩
  · intro pin now state req e h1 h2
    have h3 : (req.admin_pin == pin) = false := by simpa using h2
    simp [indexJsAttendancePost, h1, h3]
  · intro pin today now state req cErr iErr h1 h2
    have h3 : (req.admin_pin == pin) = false := by simpa using h2
    simp [part001AttendancePost, h1, h3]
  · intro pin s e now state req cErr iErr h1 h2 h3 h4
    have h5 : (req.admin_pin == pin) = false := by simpa using h4
    simp [part000AttendancePost, h1, h2, h3, h5]
  · intro secret today state req iErr h
    have h2 : requireAdminPasses secret req.headerSecret req.bodySecret = false := by
      simpa [requireAdminPasses] using h
    simp [revBAttendancePost, h2]
  · intro now state req h
    simp [part002AttendancePost, h]

/-- Witness for C2 amended, instantiating each conjunct at a concrete
request with a wrong credential (for `part_002`, with an arbitrary wrong
pin that is nevertheless accepted). -/
theorem c2_amended_witness :
    indexJsAttendancePost (some "1234") "t" [] ⟨some "s1", none, none, some "999"⟩ none =
      (⟨403, false, some "Forbidden: invalid admin pin", none⟩, []) ∧
    part001AttendancePost (some "1234") "d" "t" [] ⟨some "s1", none, none, some "999"⟩ none none =
      (⟨403, false, some "Forbidden: invalid admin pin", none⟩, []) ∧
    part000AttendancePost (some "1234") "a" "b" "t" [] ⟨some "s1", some "L", some "C", some "999"⟩ none none =
      (⟨403, false, some "Invalid admin PIN", none⟩, []) ∧
    revBAttendancePost "sec" "d" [] ⟨some "s1", none, none, some "999"⟩ none =
      (⟨401, false, some "Unauthorized", none⟩, []) ∧
    part002AttendancePost "t" [] ⟨some "s1", none, none, some "999"⟩ none =
      (⟨200, true, none, none⟩, [⟨"s1", "Unknown", "Unknown", "t"⟩]) :=
  ⟨c2_amended.1 _ _ _ _ _ (by decide) (by decide),
   c2_amended.2.1 _ _ _ _ _ _ _ (by decide) (by decide),
   c2_amended.2.2.1 _ _ _ _ _ _ _ _ (by decide) (by decide) (by decide) (by decide),
   c2_amended.2.2.2.1 _ _ _ _ _ (by decide),
   c2_amended.2.2.2.2 _ _ _ (by decide)⟩

/-- C1 as stated is false: the `POST /api/attendance` handler of
`src/index.js` performs no duplicate check at all, so with an accepted
pin and an existing record for the student created on the same day
it inserts a second record and answers `{ok:true}` — not
`{ok:false, error:"Attendance already taken..."}` with no insert. -/
theorem c1_counterexample :
    strLe "2026-10-12" "2026-10-12T08:00:00" = true ∧
    (indexJsAttendancePost (some "1234") "2026-10-12T09:00:00"
        [⟨"s1", "Dr. Okoro", "CS101", "2026-10-12T08:00:00"⟩]
        ⟨some "s1", some "Dr. Okoro", some "CS101", some "1234"⟩ none).1.ok = true ∧
    ((indexJsAttendancePost (some "1234") "2026-10-12T09:00:00"
        [⟨"s1", "Dr. Okoro", "CS101", "2026-10-12T08:00:00"⟩]
        ⟨some "s1", some "Dr. Okoro", some "CS101", some "1234"⟩ none).2).length = 2 := by
  decide

/-- C1 amended: the handlers that DO check for duplicates report them
with HTTP 200 and no insert — the first revision of `part_001` with
`{ok:false, error:"Attendance already taken today"}`, `part_000` with
`{ok:false, error:"Attendance already taken for this course today"}`,
and the second revision of `part_001` with `{ok:true, message:"Already
recorded"}` (ok TRUE, no error field) — while `src/index.js` performs no
duplicate check and inserts a fresh record whenever the pin is
accepted. -/
theorem c1_amended :
    (∀ (pin : Option String) (today now : String) (state : List AttendanceRecord)
        (req : AttReq) (iErr : Option String),
       jsTruthy req.student_id = true → jsTruthy pin = true → req.admin_pin = pin →
       0 < (part001ExistingToday today (req.student_id.getD "") state).length →
       part001AttendancePost pin today now state req none iErr =
         (⟨200, false, some "Attendance already taken today", none⟩, state)) ∧
    (∀ (pin : Option String) (s e now : String) (state : List AttendanceRecord)
        (req : AttReq) (iErr : Option String),
       jsTruthy req.student_id = true → jsTruthy req.lecturer = true →
       jsTruthy req.course = true → req.admin_pin = pin →
       0 < (part000ExistingToday s e (req.student_id.getD "")
              (req.lecturer.getD "") (req.course.getD "") state).length →
       part000AttendancePost pin s e now state req none iErr =
         (⟨200, false, some "Attendance already taken for this course today", none⟩, state)) ∧
    (∀ (secret today : String) (state : List RevBAttendanceRecord)
        (req : RevBAttReq) (iErr : Option String),
       requireAdminPasses secret req.headerSecret req.bodySecret = true →
       jsTruthy req.student_id = true →
       0 < (state.filter fun r =>
              r.student_id == req.student_id.getD "" && r.date == today).length →
       revBAttendancePost secret today state req iErr =
         (⟨200, true, none, some "Already recorded"⟩, state)) ∧
    (∀ (pin : Option String) (now : String) (state : List AttendanceRecord)
        (req : AttReq) (r : AttendanceRecord),
       r ∈ state → r.student_id = req.student_id.getD "" →
       jsTruthy req.student_id = true → jsTruthy pin = true → req.admin_pin = pin →
       indexJsAttendancePost pin now state req none =
         (⟨200, true, none, none⟩,
           { student_id := req.student_id.getD "",
             lecturer := req.lecturer.getD "Unknown",
             course := req.course.getD "Unknown",
             created_at := now } :: state)) := by
  refine ⟨?_, ?_, ?_, ?_⟩
  · intro pin today now state req iErr h1 h2 h3 h4
    subst h3
    simp [part001AttendancePost, h1, h2, h4]
  · intro pin s e now state req iErr h1 h2 h3 h4 h5
    subst h4
    simp [part000AttendancePost, h1, h2, h3, h5]
  · intro secret today state req iErr h1 h2 h3
    simp [revBAttendancePost, h1, h2, h3]
  · intro pin now state req r hmem hsid h1 h2 h3
    subst h3
    simp [indexJsAttendancePost, h1, h2]

/-- Witness for C1 amended: each duplicate branch taken at a concrete
same-day state, and `src/index.js` inserting over an existing record. -/
theorem c1_amended_witness :
    part001AttendancePost (some "1234") "2026-10-12" "2026-10-12T10:00:00"
        [⟨"s1", "L", "C", "2026-10-12T08:00:00"⟩]
        ⟨some "s1", none, none, some "1234"⟩ none none =
      (⟨200, false, some "Attendance already taken today", none⟩,
        [⟨"s1", "L", "C", "2026-10-12T08:00:00"⟩]) ∧
    part000AttendancePost (some "1234") "2026-10-12T00:00:00" "2026-10-12T23:59:59"
        "2026-10-12T10:00:00" [⟨"s1", "L", "C", "2026-10-12T08:00:00"⟩]
        ⟨some "s1", some "L", some "C", some "1234"⟩ none none =
      (⟨200, false, some "Attendance already taken for this course today", none⟩,
        [⟨"s1", "L", "C", "2026-10-12T08:00:00"⟩]) ∧
    revBAttendancePost "myattendancesecret2025" "2026-10-12"
        [⟨"s1", "2026-10-12", "Present", none⟩]
        ⟨some "s1", none, none, some "myattendancesecret2025"⟩ none =
      (⟨200, true, none, some "Already recorded"⟩,
        [⟨"s1", "2026-10-12", "Present", none⟩]) ∧
    indexJsAttendancePost (some "1234") "2026-10-12T10:00:00"
        [⟨"s1", "L", "C", "2026-10-12T08:00:00"⟩]
        ⟨some "s1", none, none, some "1234"⟩ none =
      (⟨200, true, none, none⟩,
        [⟨"s1", "Unknown", "Unknown", "2026-10-12T10:00:00"⟩,
         ⟨"s1", "L", "C", "2026-10-12T08:00:00"⟩]) :=
  ⟨c1_amended.1 _ _ _ _ _ _ (by decide) (by decide) (by decide) (by decide),
   c1_amended.2.1 _ _ _ _ _ _ _ (by decide) (by decide) (by decide) (by decide) (by decide),
   c1_amended.2.2.1 _ _ _ _ _ (by decide) (by decide) (by decide),
   c1_amended.2.2.2 _ _ _ _ ⟨"s1", "L", "C", "2026-10-12T08:00:00"⟩
     (by decide) (by decide) (by decide) (by decide) (by decide)⟩

/-- C7 as stated is false: the `POST /api/attendance` handler of
`src/unnamed/part_000` REQUIRES `lecturer` and `course` — a request with
a student identifier and a correct pin but no `lecturer` field is
rejected with HTTP 400 and nothing is inserted. -/
theorem c7_counterexample :
    part000AttendancePost (some "1234") "2026-10-12T00:00:00" "2026-10-12T23:59:59"
        "2026-10-12T09:00:00" [] ⟨some "s1", none, some "CS101", some "1234"⟩ none none =
      (⟨400, false, some "Missing required fields", none⟩, []) := by
  decide

/-- C7 amended: in `src/index.js`, the first revision of `part_001` and
`part_002`, `lecturer` and `course` are optional and default to
`"Unknown"` in the inserted record, the request never being rejected for
their absence; `part_000` instead requires both and answers 400 when
either is absent. -/
theorem c7_amended :
    (∀ (pin : Option String) (now : String) (state : List AttendanceRecord) (req : AttReq),
       jsTruthy req.student_id = true → jsTruthy pin = true → req.admin_pin = pin →
       indexJsAttendancePost pin now state req none =
         (⟨200, true, none, none⟩,
           { student_id := req.student_id.getD "",
             lecturer := req.lecturer.getD "Unknown",
             course := req.course.getD "Unknown",
             created_at := now } :: state)) ∧
    (∀ (pin : Option String) (today now : String) (state : List AttendanceRecord) (req : AttReq),
       jsTruthy req.student_id = true → jsTruthy pin = true → req.admin_pin = pin →
       (part001ExistingToday today (req.student_id.getD "") state).length = 0 →
       part001AttendancePost pin today now state req none none =
         (⟨200, true, none, none⟩,
           { student_id := req.student_id.getD "",
             lecturer := req.lecturer.getD "Unknown",
             course := req.course.getD "Unknown",
             created_at := now } :: state)) ∧
    (∀ (now : String) (state : List AttendanceRecord) (req : AttReq),
       jsTruthy req.student_id = true →
       part002AttendancePost now state req none =
         (⟨200, true, none, none⟩,
           { student_id := req.student_id.getD "",
             lecturer := req.lecturer.getD "Unknown",
             course := req.course.getD "Unknown",
             created_at := now } :: state)) ∧
    (∀ (pin : Option String) (s e now : String) (state : List AttendanceRecord) (req : AttReq),
       jsTruthy req.student_id = true → req.lecturer = none →
       part000AttendancePost pin s e now state req none none =
         (⟨400, false, some "Missing required fields", none⟩, state)) := by
  refine ⟨?_, ?_, ?_, ?_⟩
  · intro pin now state req h1 h2 h3
    subst h3
    simp [indexJsAttendancePost, h1, h2]
  · intro pin today now state req h1 h2 h3 h4
    subst h3
    simp [part001AttendancePost, h1, h2, h4]
  · intro now state req h
    simp [part002AttendancePost, h]
  · intro pin s e now state req h1 h2
    simp [part000AttendancePost, h1, h2, jsTruthy_none]

/-- Witness for C7 amended: requests that omit `lecturer` and `course`
are accepted with `"Unknown"` defaults by three handlers and rejected by
`part_000`. -/
theorem c7_amended_witness :
    indexJsAttendancePost (some "1234") "now1" [] ⟨some "s2", none, none, some "1234"⟩ none =
      (⟨200, true, none, none⟩, [⟨"s2", "Unknown", "Unknown", "now1"⟩]) ∧
    part001AttendancePost (some "1234") "2026-10-12" "now2" []
        ⟨some "s2", none, none, some "1234"⟩ none none =
      (⟨200, true, none, none⟩, [⟨"s2", "Unknown", "Unknown", "now2"⟩]) ∧
    part002AttendancePost "now3" [] ⟨some "s2", none, none, none⟩ none =
      (⟨200, true, none, none⟩, [⟨"s2", "Unknown", "Unknown", "now3"⟩]) ∧
    part000AttendancePost (some "1234") "a" "b" "now4" []
        ⟨some "s2", none, some "CS101", some "1234"⟩ none none =
      (⟨400, false, some "Missing required fields", none⟩, []) :=
  ⟨c7_amended.1 _ _ _ _ (by decide) (by decide) (by decide),
   c7_amended.2.1 _ _ _ _ _ (by decide) (by decide) (by decide) (by decide),
   c7_amended.2.2.1 _ _ _ (by decide),
   c7_amended.2.2.2 _ _ _ _ _ _ (by decide) (by decide)⟩

/-- C4 as stated is false: `src/index.js` checks only `SUPABASE_URL`,
`SUPABASE_KEY` and `FRONTEND_URL` at startup — with those present and
`ADMIN_PIN` absent, the process does NOT exit and goes on to serve
requests. -/
theorem c4_counterexample :
    indexJsStartup ⟨some "https://sb.example", some "key123", some "https://front.example", none⟩ = none ∧
    (⟨some "https://sb.example", some "key123", some "https://front.example", none⟩ : EnvConfig).ADMIN_PIN = none := by
  decide

/-- C4 amended: `src/index.js` exits with code 1 exactly when
`SUPABASE_URL`, `SUPABASE_KEY` or the slash-stripped `FRONTEND_URL` is
falsy — the admin credential is never checked at startup — while
`src/unnamed/part_000` additionally exits when `ADMIN_PIN` is falsy. -/
theorem c4_amended :
    (∀ e : EnvConfig,
       indexJsStartup e = some 1 ↔
       (jsTruthy e.SUPABASE_URL = false ∨ jsTruthy e.SUPABASE_KEY = false ∨
        envFrontendUrl e = "")) ∧
    (∀ e : EnvConfig, jsTruthy e.ADMIN_PIN = false → part000Startup e = some 1) := by
  constructor
  · intro e
    by_cases ha : jsTruthy e.SUPABASE_URL = true <;>
      by_cases hb : jsTruthy e.SUPABASE_KEY = true <;>
      by_cases hf : envFrontendUrl e = "" <;>
      simp_all [indexJsStartup]
  · intro e h
    simp [part000Startup, h]

/-- Witness for C4 amended: a configuration missing the store key makes
`src/index.js` exit, and a configuration missing only `ADMIN_PIN` makes
`part_000` exit. -/
theorem c4_amended_witness :
    indexJsStartup ⟨some "u", none, some "f", some "p"⟩ = some 1 ∧
    part000Startup ⟨some "u", some "k", some "f", none⟩ = some 1 :=
  ⟨(c4_amended.1 ⟨some "u", none, some "f", some "p"⟩).mpr (Or.inr (Or.inl (by decide))),
   c4_amended.2 ⟨some "u", some "k", some "f", none⟩ (by decide)⟩

/-- C3 as stated is false: with all four required fields present, a
failing store insert makes the `POST /api/student` handler of
`src/index.js` answer
HTTP 500 with NO student record in the response. -/
theorem c3_counterexample :
    (indexJsStudentPost "https://front.example"
        ⟨some "Amy Lin", some "amyl", some "a@x.edu", some "M123", false⟩
        ⟨.error "duplicate key value", none, none, none, none⟩).student = none ∧
    (indexJsStudentPost "https://front.example"
        ⟨some "Amy Lin", some "amyl", some "a@x.edu", some "M123", false⟩
        ⟨.error "duplicate key value", none, none, none, none⟩).status = 500 := by
  constructor <;> rfl

/-- C3 amended: for every `POST /api/student` handler, if all four
required fields are present (non-empty) and the student insert succeeds
— and, in `src/index.js` and the first revision of `part_001`, the QR
upload also succeeds — the response carries the student record the store
assigned (status 200, ok true); if any required field is missing, every
handler answers 400 and the insert is never attempted. -/
theorem c3_amended :
    (∀ (FRONTEND : String) (req : RegReq) (st : RegStore) (row : StudentRow),
       jsTruthy req.name = true → jsTruthy req.username = true →
       jsTruthy req.email = true → jsTruthy req.matric_number = true →
       st.insertRes = .ok row → st.qrUploadErr = none →
       (indexJsStudentPost FRONTEND req st).status = 200 ∧
       (indexJsStudentPost FRONTEND req st).ok = true ∧
       ∃ out, (indexJsStudentPost FRONTEND req st).student = some out ∧ out.row = row) ∧
    (∀ (FRONTEND : String) (req : RegReq) (st : RegStore),
       (jsTruthy req.name && jsTruthy req.username && jsTruthy req.email &&
        jsTruthy req.matric_number) = false →
       (indexJsStudentPost FRONTEND req st).status = 400 ∧
       (indexJsStudentPost FRONTEND req st).insertAttempted = false ∧
       (indexJsStudentPost FRONTEND req st).student = none) ∧
    (∀ (FRONTEND : String) (req : RegReq) (st : RegStore) (row : StudentRow),
       jsTruthy req.name = true → jsTruthy req.username = true →
       jsTruthy req.email = true → jsTruthy req.matric_number = true →
       st.insertRes = .ok row → st.qrUploadErr = none →
       (part001StudentPost FRONTEND req st).status = 200 ∧
       (part001StudentPost FRONTEND req st).ok = true ∧
       ∃ out, (part001StudentPost FRONTEND req st).student = some out ∧ out.row = row) ∧
    (∀ (FRONTEND : String) (req : RegReq) (st : RegStore),
       (jsTruthy req.name && jsTruthy req.username && jsTruthy req.email &&
        jsTruthy req.matric_number) = false →
       (part001StudentPost FRONTEND req st).status = 400 ∧
       (part001StudentPost FRONTEND req st).insertAttempted = false ∧
       (part001StudentPost FRONTEND req st).student = none) ∧
    (∀ (FRONTEND : String) (req : RegReq) (st : RegStore) (row : StudentRow),
       jsTruthy req.name = true → jsTruthy req.username = true →
       jsTruthy req.email = true → jsTruthy req.matric_number = true →
       st.insertRes = .ok row →
       (part000StudentPost FRONTEND req st).status = 200 ∧
       (part000StudentPost FRONTEND req st).ok = true ∧
       ∃ out, (part000StudentPost FRONTEND req st).student = some out ∧ out.row = row) ∧
    (∀ (FRONTEND : String) (req : RegReq) (st : RegStore),
       (jsTruthy req.name && jsTruthy req.username && jsTruthy req.email &&
        jsTruthy req.matric_number) = false →
       (part000StudentPost FRONTEND req st).status = 400 ∧
       (part000StudentPost FRONTEND req st).insertAttempted = false ∧
       (part000StudentPost FRONTEND req st).student = none) ∧
    (∀ (req : RegReq) (st : RegStore) (row : StudentRow),
       jsTruthy req.name = true → jsTruthy req.username = true →
       jsTruthy req.email = true → jsTruthy req.matric_number = true →
       st.insertRes = .ok row →
       (part002StudentPost req st).status = 200 ∧
       (part002StudentPost req st).ok = true ∧
       ∃ out, (part002StudentPost req st).student = some out ∧ out.row = row) ∧
    (∀ (req : RegReq) (st : RegStore),
       (jsTruthy req.name && jsTruthy req.username && jsTruthy req.email &&
        jsTruthy req.matric_number) = false →
       (part002StudentPost req st).status = 400 ∧
       (part002StudentPost req st).insertAttempted = false ∧
       (part002StudentPost req st).student = none) := by
  refine ⟨?_, ?_, ?_, ?_, ?_, ?_, ?_, ?_⟩
  · intro FRONTEND req st row h1 h2 h3 h4 h5 h6
    simp [indexJsStudentPost, h1, h2, h3, h4, h5, h6]
  · intro FRONTEND req st h
    have h2 : (!(jsTruthy req.name) || !(jsTruthy req.username) ||
               !(jsTruthy req.email) || !(jsTruthy req.matric_number)) = true := by
      cases ha : jsTruthy req.name <;> cases hb : jsTruthy req.username <;>
        cases hc : jsTruthy req.email <;> cases hd : jsTruthy req.matric_number <;>
        simp_all
    simp [indexJsStudentPost, h2]
  · intro FRONTEND req st row h1 h2 h3 h4 h5 h6
    simp [part001StudentPost, h1, h2, h3, h4, h5, h6]
  · intro FRONTEND req st h
    have h2 : (!(jsTruthy req.name) || !(jsTruthy req.username) ||
               !(jsTruthy req.email) || !(jsTruthy req.matric_number)) = true := by
      cases ha : jsTruthy req.name <;> cases hb : jsTruthy req.username <;>
        cases hc : jsTruthy req.email <;> cases hd : jsTruthy req.matric_number <;>
        simp_all
    simp [part001StudentPost, h2]
  · intro FRONTEND req st row h1 h2 h3 h4 h5
    simp [part000StudentPost, h1, h2, h3, h4, h5]
  · intro FRONTEND req st h
    have h2 : (!(jsTruthy req.name) || !(jsTruthy req.username) ||
               !(jsTruthy req.email) || !(jsTruthy req.matric_number)) = true := by
      cases ha : jsTruthy req.name <;> cases hb : jsTruthy req.username <;>
        cases hc : jsTruthy req.email <;> cases hd : jsTruthy req.matric_number <;>
        simp_all
    simp [part000StudentPost, h2]
  · intro req st row h1 h2 h3 h4 h5
    simp [part002StudentPost, h1, h2, h3, h4, h5]
  · intro req st h
    have h2 : (!(jsTruthy req.name) || !(jsTruthy req.username) ||
               !(jsTruthy req.email) || !(jsTruthy req.matric_number)) = true := by
      cases ha : jsTruthy req.name <;> cases hb : jsTruthy req.username <;>
        cases hc : jsTruthy req.email <;> cases hd : jsTruthy req.matric_number <;>
        simp_all
    simp [part002StudentPost, h2]

/-- Witness for C3 amended: for each of the four handlers, a full
registration succeeding end to end, and one rejected for a missing email
with no insert attempted. -/
theorem c3_amended_witness :
    ((indexJsStudentPost "https://front.example"
        ⟨some "Amy Lin", some "amyl", some "a@x.edu", some "M123", false⟩
        ⟨.ok ⟨"s5", "Amy Lin", "amyl", "a@x.edu", "M123"⟩, none, none, none,
          some "https://blob/qr_s5.png"⟩).status = 200 ∧
     (indexJsStudentPost "https://front.example"
        ⟨some "Amy Lin", some "amyl", some "a@x.edu", some "M123", false⟩
        ⟨.ok ⟨"s5", "Amy Lin", "amyl", "a@x.edu", "M123"⟩, none, none, none,
          some "https://blob/qr_s5.png"⟩).ok = true ∧
     ∃ out, (indexJsStudentPost "https://front.example"
        ⟨some "Amy Lin", some "amyl", some "a@x.edu", some "M123", false⟩
        ⟨.ok ⟨"s5", "Amy Lin", "amyl", "a@x.edu", "M123"⟩, none, none, none,
          some "https://blob/qr_s5.png"⟩).student = some out ∧
        out.row = ⟨"s5", "Amy Lin", "amyl", "a@x.edu", "M123"⟩) ∧
    ((indexJsStudentPost "https://front.example"
        ⟨some "Amy Lin", some "amyl", none, some "M123", false⟩
        ⟨.error "never reached", none, none, none, none⟩).status = 400 ∧
     (indexJsStudentPost "https://front.example"
        ⟨some "Amy Lin", some "amyl", none, some "M123", false⟩
        ⟨.error "never reached", none, none, none, none⟩).insertAttempted = false ∧
     (indexJsStudentPost "https://front.example"
        ⟨some "Amy Lin", some "amyl", none, some "M123", false⟩
        ⟨.error "never reached", none, none, none, none⟩).student = none) ∧
    ((part001StudentPost "https://front.example"
        ⟨some "Amy Lin", some "amyl", some "a@x.edu", some "M123", false⟩
        ⟨.ok ⟨"s5", "Amy Lin", "amyl", "a@x.edu", "M123"⟩, none, none, none,
          some "https://blob/qr_s5.png"⟩).status = 200 ∧
     (part001StudentPost "https://front.example"
        ⟨some "Amy Lin", some "amyl", some "a@x.edu", some "M123", false⟩
        ⟨.ok ⟨"s5", "Amy Lin", "amyl", "a@x.edu", "M123"⟩, none, none, none,
          some "https://blob/qr_s5.png"⟩).ok = true ∧
     ∃ out, (part001StudentPost "https://front.example"
        ⟨some "Amy Lin", some "amyl", some "a@x.edu", some "M123", false⟩
        ⟨.ok ⟨"s5", "Amy Lin", "amyl", "a@x.edu", "M123"⟩, none, none, none,
          some "https://blob/qr_s5.png"⟩).student = some out ∧
        out.row = ⟨"s5", "Amy Lin", "amyl", "a@x.edu", "M123"⟩) ∧
    ((part001StudentPost "https://front.example"
        ⟨some "Amy Lin", some "amyl", none, some "M123", false⟩
        ⟨.error "never reached", none, none, none, none⟩).status = 400 ∧
     (part001StudentPost "https://front.example"
        ⟨some "Amy Lin", some "amyl", none, some "M123", false⟩
        ⟨.error "never reached", none, none, none, none⟩).insertAttempted = false ∧
     (part001StudentPost "https://front.example"
        ⟨some "Amy Lin", some "amyl", none, some "M123", false⟩
        ⟨.error "never reached", none, none, none, none⟩).student = none) ∧
    ((part000StudentPost "https://front.example"
        ⟨some "Amy Lin", some "amyl", some "a@x.edu", some "M123", false⟩
        ⟨.ok ⟨"s5", "Amy Lin", "amyl", "a@x.edu", "M123"⟩, none, none, none, none⟩).status = 200 ∧
     (part000StudentPost "https://front.example"
        ⟨some "Amy Lin", some "amyl", some "a@x.edu", some "M123", false⟩
        ⟨.ok ⟨"s5", "Amy Lin", "amyl", "a@x.edu", "M123"⟩, none, none, none, none⟩).ok = true ∧
     ∃ out, (part000StudentPost "https://front.example"
        ⟨some "Amy Lin", some "amyl", some "a@x.edu", some "M123", false⟩
        ⟨.ok ⟨"s5", "Amy Lin", "amyl", "a@x.edu", "M123"⟩, none, none, none, none⟩).student =
        some out ∧ out.row = ⟨"s5", "Amy Lin", "amyl", "a@x.edu", "M123"⟩) ∧
    ((part000StudentPost "https://front.example"
        ⟨some "Amy Lin", some "amyl", none, some "M123", false⟩
        ⟨.error "never reached", none, none, none, none⟩).status = 400 ∧
     (part000StudentPost "https://front.example"
        ⟨some "Amy Lin", some "amyl", none, some "M123", false⟩
        ⟨.error "never reached", none, none, none, none⟩).insertAttempted = false ∧
     (part000StudentPost "https://front.example"
        ⟨some "Amy Lin", some "amyl", none, some "M123", false⟩
        ⟨.error "never reached", none, none, none, none⟩).student = none) ∧
    ((part002StudentPost
        ⟨some "Amy Lin", some "amyl", some "a@x.edu", some "M123", false⟩
        ⟨.ok ⟨"s5", "Amy Lin", "amyl", "a@x.edu", "M123"⟩, none, none, none, none⟩).status = 200 ∧
     (part002StudentPost
        ⟨some "Amy Lin", some "amyl", some "a@x.edu", some "M123", false⟩
        ⟨.ok ⟨"s5", "Amy Lin", "amyl", "a@x.edu", "M123"⟩, none, none, none, none⟩).ok = true ∧
     ∃ out, (part002StudentPost
        ⟨some "Amy Lin", some "amyl", some "a@x.edu", some "M123", false⟩
        ⟨.ok ⟨"s5", "Amy Lin", "amyl", "a@x.edu", "M123"⟩, none, none, none, none⟩).student =
        some out ∧ out.row = ⟨"s5", "Amy Lin", "amyl", "a@x.edu", "M123"⟩) ∧
    ((part002StudentPost
        ⟨some "Amy Lin", some "amyl", none, some "M123", false⟩
        ⟨.error "never reached", none, none, none, none⟩).status = 400 ∧
     (part002StudentPost
        ⟨some "Amy Lin", some "amyl", none, some "M123", false⟩
        ⟨.error "never reached", none, none, none, none⟩).insertAttempted = false ∧
     (part002StudentPost
        ⟨some "Amy Lin", some "amyl", none, some "M123", false⟩
        ⟨.error "never reached", none, none, none, none⟩).student = none) :=
  ⟨c3_amended.1 _ _ _ ⟨"s5", "Amy Lin", "amyl", "a@x.edu", "M123"⟩
     (by decide) (by decide) (by decide) (by decide) rfl rfl,
   c3_amended.2.1 _ _ _ (by decide),
   c3_amended.2.2.1 _ _ _ ⟨"s5", "Amy Lin", "amyl", "a@x.edu", "M123"⟩
     (by decide) (by decide) (by decide) (by decide) rfl rfl,
   c3_amended.2.2.2.1 _ _ _ (by decide),
   c3_amended.2.2.2.2.1 _ _ _ ⟨"s5", "Amy Lin", "amyl", "a@x.edu", "M123"⟩
     (by decide) (by decide) (by decide) (by decide) rfl,
   c3_amended.2.2.2.2.2.1 _ _ _ (by decide),
   c3_amended.2.2.2.2.2.2.1 _ _ ⟨"s5", "Amy Lin", "amyl", "a@x.edu", "M123"⟩
     (by decide) (by decide) (by decide) (by decide) rfl,
   c3_amended.2.2.2.2.2.2.2 _ _ (by decide)⟩

/-- C5 as stated is false: the registration handler of
`src/unnamed/part_002` never
inspects the QR-upload result, so a failed QR upload still yields a 200
success — the QR step is NOT fatal there. -/
theorem c5_counterexample :
    (part002StudentPost
        ⟨some "Amy Lin", some "amyl", some "a@x.edu", some "M123", false⟩
        ⟨.ok ⟨"s9", "Amy Lin", "amyl", "a@x.edu", "M123"⟩, none, none,
          some "qr upload failed", some "https://blob/qr_s9.png"⟩).status = 200 ∧
    (part002StudentPost
        ⟨some "Amy Lin", some "amyl", some "a@x.edu", some "M123", false⟩
        ⟨.ok ⟨"s9", "Amy Lin", "amyl", "a@x.edu", "M123"⟩, none, none,
          some "qr upload failed", some "https://blob/qr_s9.png"⟩).ok = true := by
  constructor <;> rfl

/-- C5 amended: the asymmetry holds in `src/index.js` — a failed photo
upload is tolerated (success with `photo_url` null) while a failed QR
upload is fatal (500, no student in the response) — but the
registration handler of `part_002` ignores the QR-upload error and succeeds regardless. -/
theorem c5_amended :
    (∀ (FRONTEND : String) (req : RegReq) (st : RegStore) (row : StudentRow) (perr : String),
       jsTruthy req.name = true → jsTruthy req.username = true →
       jsTruthy req.email = true → jsTruthy req.matric_number = true →
       st.insertRes = .ok row → req.hasPhoto = true →
       st.photoUploadErr = some perr → st.qrUploadErr = none →
       (indexJsStudentPost FRONTEND req st).status = 200 ∧
       (indexJsStudentPost FRONTEND req st).ok = true ∧
       ∃ out, (indexJsStudentPost FRONTEND req st).student = some out ∧
         out.photo_url = none) ∧
    (∀ (FRONTEND : String) (req : RegReq) (st : RegStore) (row : StudentRow) (qerr : String),
       jsTruthy req.name = true → jsTruthy req.username = true →
       jsTruthy req.email = true → jsTruthy req.matric_number = true →
       st.insertRes = .ok row → st.qrUploadErr = some qerr →
       (indexJsStudentPost FRONTEND req st).status = 500 ∧
       (indexJsStudentPost FRONTEND req st).student = none) ∧
    (∀ (req : RegReq) (st : RegStore) (row : StudentRow) (qerr : String),
       jsTruthy req.name = true → jsTruthy req.username = true →
       jsTruthy req.email = true → jsTruthy req.matric_number = true →
       st.insertRes = .ok row → st.qrUploadErr = some qerr →
       (part002StudentPost req st).status = 200 ∧
       (part002StudentPost req st).ok = true) := by
  refine ⟨?_, ?_, ?_⟩
  · intro FRONTEND req st row perr h1 h2 h3 h4 h5 h6 h7 h8
    simp [indexJsStudentPost, h1, h2, h3, h4, h5, h6, h7, h8]
  · intro FRONTEND req st row qerr h1 h2 h3 h4 h5 h6
    simp [indexJsStudentPost, h1, h2, h3, h4, h5, h6]
  · intro req st row qerr h1 h2 h3 h4 h5 h6
    simp [part002StudentPost, h1, h2, h3, h4, h5]

/-- Witness for C5 amended at concrete stores: a failed photo upload
tolerated, a failed QR upload fatal in `src/index.js`, a failed QR
upload ignored in `part_002`. -/
theorem c5_amended_witness :
    ((indexJsStudentPost "https://f"
        ⟨some "A", some "a", some "e@x", some "M1", true⟩
        ⟨.ok ⟨"s3", "A", "a", "e@x", "M1"⟩, some "photo failed", some "https://blob/p.png",
          none, some "https://blob/q.png"⟩).status = 200 ∧
     (indexJsStudentPost "https://f"
        ⟨some "A", some "a", some "e@x", some "M1", true⟩
        ⟨.ok ⟨"s3", "A", "a", "e@x", "M1"⟩, some "photo failed", some "https://blob/p.png",
          none, some "https://blob/q.png"⟩).ok = true ∧
     ∃ out, (indexJsStudentPost "https://f"
        ⟨some "A", some "a", some "e@x", some "M1", true⟩
        ⟨.ok ⟨"s3", "A", "a", "e@x", "M1"⟩, some "photo failed", some "https://blob/p.png",
          none, some "https://blob/q.png"⟩).student = some out ∧
        out.photo_url = none) ∧
    ((indexJsStudentPost "https://f"
        ⟨some "A", some "a", some "e@x", some "M1", false⟩
        ⟨.ok ⟨"s3", "A", "a", "e@x", "M1"⟩, none, none, some "qr failed", none⟩).status = 500 ∧
     (indexJsStudentPost "https://f"
        ⟨some "A", some "a", some "e@x", some "M1", false⟩
        ⟨.ok ⟨"s3", "A", "a", "e@x", "M1"⟩, none, none, some "qr failed", none⟩).student = none) ∧
    ((part002StudentPost
        ⟨some "A", some "a", some "e@x", some "M1", false⟩
        ⟨.ok ⟨"s3", "A", "a", "e@x", "M1"⟩, none, none, some "qr failed", none⟩).status = 200 ∧
     (part002StudentPost
        ⟨some "A", some "a", some "e@x", some "M1", false⟩
        ⟨.ok ⟨"s3", "A", "a", "e@x", "M1"⟩, none, none, some "qr failed", none⟩).ok = true) :=
  ⟨c5_amended.1 _ _ _ ⟨"s3", "A", "a", "e@x", "M1"⟩ "photo failed"
     (by decide) (by decide) (by decide) (by decide) rfl rfl rfl rfl,
   c5_amended.2.1 _ _ _ ⟨"s3", "A", "a", "e@x", "M1"⟩ "qr failed"
     (by decide) (by decide) (by decide) (by decide) rfl rfl,
   c5_amended.2.2 _ _ ⟨"s3", "A", "a", "e@x", "M1"⟩ "qr failed"
     (by decide) (by decide) (by decide) (by decide) rfl rfl⟩

/-- C8 as stated is false: the `/api/create-student` registration of
`src/unnamed/part_001` (second document) encodes the URI-scheme string
`attendance://<studentId>` into the QR image — neither the deep link nor
the raw JSON payload — on a registration that succeeds end to end. -/
theorem c8_counterexample :
    (revBCreateStudent ⟨some "Bola", some "bola1", some "b@x.edu", some "M200", false⟩
        ⟨.ok ⟨"77", "Bola", "bola1", "b@x.edu", "M200"⟩, .ok "purl", .ok "qurl"⟩).status = 200 ∧
    (revBCreateStudent ⟨some "Bola", some "bola1", some "b@x.edu", some "M200", false⟩
        ⟨.ok ⟨"77", "Bola", "bola1", "b@x.edu", "M200"⟩, .ok "purl", .ok "qurl"⟩).qrText =
      some "attendance://77" ∧
    specScanTarget "https://front.example" "attendance://77" "77" = false := by
  refine ⟨rfl, rfl, by decide⟩

/-- C8 amended: the encoded scan target is the URL-encoded deep link in
`src/index.js` and the first revision of `part_001`, the deep link
WITHOUT URL-encoding of the identifier in `part_000`, the raw JSON
payload in `part_002`, and the string `attendance://<studentId>` in the
second revision of `part_001`. -/
theorem c8_amended :
    (∀ (FRONTEND : String) (req : RegReq) (st : RegStore) (row : StudentRow),
       jsTruthy req.name = true → jsTruthy req.username = true →
       jsTruthy req.email = true → jsTruthy req.matric_number = true →
       st.insertRes = .ok row →
       (indexJsStudentPost FRONTEND req st).qrText =
         some (FRONTEND ++ "/scan?id=" ++ encodeURIComponent row.id)) ∧
    (∀ (FRONTEND : String) (req : RegReq) (st : RegStore) (row : StudentRow),
       jsTruthy req.name = true → jsTruthy req.username = true →
       jsTruthy req.email = true → jsTruthy req.matric_number = true →
       st.insertRes = .ok row →
       (part001StudentPost FRONTEND req st).qrText =
         some (FRONTEND ++ "/scan?id=" ++ encodeURIComponent row.id)) ∧
    (∀ (FRONTEND : String) (req : RegReq) (st : RegStore) (row : StudentRow),
       jsTruthy req.name = true → jsTruthy req.username = true →
       jsTruthy req.email = true → jsTruthy req.matric_number = true →
       st.insertRes = .ok row →
       (part000StudentPost FRONTEND req st).qrText =
         some (FRONTEND ++ "/scan?id=" ++ row.id)) ∧
    (∀ (req : RegReq) (st : RegStore) (row : StudentRow),
       jsTruthy req.name = true → jsTruthy req.username = true →
       jsTruthy req.email = true → jsTruthy req.matric_number = true →
       st.insertRes = .ok row →
       (part002StudentPost req st).qrText = some (jsonIdPayload row.id)) ∧
    (∀ (req : RegReq) (st : RevBRegStore) (row : StudentRow),
       jsTruthy req.name = true → jsTruthy req.username = true →
       jsTruthy req.email = true → jsTruthy req.matric_number = true →
       st.insertRes = .ok row → req.hasPhoto = false →
       (revBCreateStudent req st).qrText = some ("attendance://" ++ row.id)) := by
  refine ⟨?_, ?_, ?_, ?_, ?_⟩
  · intro FRONTEND req st row h1 h2 h3 h4 h5
    by_cases h6 : st.qrUploadErr.isSome <;>
      simp [indexJsStudentPost, h1, h2, h3, h4, h5, h6]
  · intro FRONTEND req st row h1 h2 h3 h4 h5
    by_cases h6 : st.qrUploadErr.isSome <;>
      simp [part001StudentPost, h1, h2, h3, h4, h5, h6]
  · intro FRONTEND req st row h1 h2 h3 h4 h5
    simp [part000StudentPost, h1, h2, h3, h4, h5]
  · intro req st row h1 h2 h3 h4 h5
    simp [part002StudentPost, h1, h2, h3, h4, h5]
  · intro req st row h1 h2 h3 h4 h5 h6
    cases h7 : st.qrUpload <;>
      simp [revBCreateStudent, h1, h2, h3, h4, h5, h6, h7]

/-- Witness for C8 amended: the five encoded strings at a concrete
registration. -/
theorem c8_amended_witness :
    (indexJsStudentPost "https://f" ⟨some "A", some "a", some "e@x", some "M1", false⟩
        ⟨.ok ⟨"id 1", "A", "a", "e@x", "M1"⟩, none, none, none, none⟩).qrText =
      some ("https://f" ++ "/scan?id=" ++ encodeURIComponent "id 1") ∧
    (part001StudentPost "https://f" ⟨some "A", some "a", some "e@x", some "M1", false⟩
        ⟨.ok ⟨"id 1", "A", "a", "e@x", "M1"⟩, none, none, none, none⟩).qrText =
      some ("https://f" ++ "/scan?id=" ++ encodeURIComponent "id 1") ∧
    (part000StudentPost "https://f" ⟨some "A", some "a", some "e@x", some "M1", false⟩
        ⟨.ok ⟨"id 1", "A", "a", "e@x", "M1"⟩, none, none, none, none⟩).qrText =
      some ("https://f" ++ "/scan?id=" ++ "id 1") ∧
    (part002StudentPost ⟨some "A", some "a", some "e@x", some "M1", false⟩
        ⟨.ok ⟨"id 1", "A", "a", "e@x", "M1"⟩, none, none, none, none⟩).qrText =
      some (jsonIdPayload "id 1") ∧
    (revBCreateStudent ⟨some "A", some "a", some "e@x", some "M1", false⟩
        ⟨.ok ⟨"id 1", "A", "a", "e@x", "M1"⟩, .ok "p", .ok "q"⟩).qrText =
      some ("attendance://" ++ "id 1") :=
  ⟨c8_amended.1 _ _ _ ⟨"id 1", "A", "a", "e@x", "M1"⟩
     (by decide) (by decide) (by decide) (by decide) rfl,
   c8_amended.2.1 _ _ _ ⟨"id 1", "A", "a", "e@x", "M1"⟩
     (by decide) (by decide) (by decide) (by decide) rfl,
   c8_amended.2.2.1 _ _ _ ⟨"id 1", "A", "a", "e@x", "M1"⟩
     (by decide) (by decide) (by decide) (by decide) rfl,
   c8_amended.2.2.2.1 _ _ ⟨"id 1", "A", "a", "e@x", "M1"⟩
     (by decide) (by decide) (by decide) (by decide) rfl,
   c8_amended.2.2.2.2 _ _ ⟨"id 1", "A", "a", "e@x", "M1"⟩
     (by decide) (by decide) (by decide) (by decide) rfl rfl⟩

/-- C6 as stated is false: the `GET /api/attendance/mark` handler of
`src/index.js` performs NO duplicate check — with a matching pin and an existing
same-day record for the student it inserts a second record and reports
"Attendance recorded". -/
theorem c6_counterexample :
    strLe "2026-10-12" "2026-10-12T08:00:00" = true ∧
    (indexJsAttendanceMark (some "1234") "2026-10-12T11:00:00"
        [⟨"s1", "external-scanner", "Unknown", "2026-10-12T08:00:00"⟩]
        (some "s1") (some "1234") none).1.body = MarkBody.recorded ∧
    ((indexJsAttendanceMark (some "1234") "2026-10-12T11:00:00"
        [⟨"s1", "external-scanner", "Unknown", "2026-10-12T08:00:00"⟩]
        (some "s1") (some "1234") none).2).length = 2 := by
  decide

/-- C6 amended: in the first revision of `part_001` the GET endpoint
does perform the same (student, today) duplicate-check-then-insert
sequence as the POST handler of that file — it reports "already taken" exactly when
the POST would, skips the insert exactly when the POST would, and
otherwise inserts the sentinel record
`{lecturer:"external-scanner", course:"Unknown"}` answering with an
HTML page; the GET endpoint of `src/index.js` uses the same sentinel and
HTML
answer but inserts unconditionally, with no duplicate check. -/
theorem c6_amended :
    (∀ (pin : Option String) (today now : String) (state : List AttendanceRecord)
        (sid lect course : Option String),
       jsTruthy sid = true → jsTruthy pin = true →
       ((part001AttendanceMark pin today now state sid pin none none).1.body =
           MarkBody.alreadyTaken ↔
         (part001AttendancePost pin today now state ⟨sid, lect, course, pin⟩ none none).1 =
           ⟨200, false, some "Attendance already taken today", none⟩) ∧
       ((part001AttendanceMark pin today now state sid pin none none).2 = state ↔
         (part001AttendancePost pin today now state ⟨sid, lect, course, pin⟩ none none).2 = state) ∧
       ((part001AttendanceMark pin today now state sid pin none none).1.body =
           MarkBody.alreadyTaken ∧
         (part001AttendanceMark pin today now state sid pin none none).2 = state ∨
        (part001AttendanceMark pin today now state sid pin none none).1.body =
           MarkBody.recorded ∧
         (part001AttendanceMark pin today now state sid pin none none).2 =
           { student_id := sid.getD "", lecturer := "external-scanner",
             course := "Unknown", created_at := now } :: state)) ∧
    (∀ (pin : Option String) (now : String) (state : List AttendanceRecord)
        (sid : Option String),
       jsTruthy sid = true → jsTruthy pin = true →
       indexJsAttendanceMark pin now state sid pin none =
         (⟨200, MarkBody.recorded⟩,
           { student_id := sid.getD "", lecturer := "external-scanner",
             course := "Unknown", created_at := now } :: state)) := by
  constructor
  · intro pin today now state sid lect course h1 h2
    by_cases h3 : 0 < (part001ExistingToday today (sid.getD "") state).length <;>
      simp [part001AttendanceMark, part001AttendancePost, h1, h2, h3, List.cons_ne_self]
  · intro pin now state sid h1 h2
    simp [indexJsAttendanceMark, h1, h2]

/-- Witness for C6 amended: at a state already holding a same-day record
the `part_001` GET endpoint takes the already-taken branch without
inserting, and the GET endpoint of `src/index.js` inserts over the
existing
record. -/
theorem c6_amended_witness :
    ((part001AttendanceMark (some "1234") "2026-10-12" "2026-10-12T10:00:00"
        [⟨"s1", "L", "C", "2026-10-12T08:00:00"⟩] (some "s1") (some "1234") none none).1.body =
        MarkBody.alreadyTaken ∧
      (part001AttendanceMark (some "1234") "2026-10-12" "2026-10-12T10:00:00"
        [⟨"s1", "L", "C", "2026-10-12T08:00:00"⟩] (some "s1") (some "1234") none none).2 =
        [⟨"s1", "L", "C", "2026-10-12T08:00:00"⟩] ∨
     (part001AttendanceMark (some "1234") "2026-10-12" "2026-10-12T10:00:00"
        [⟨"s1", "L", "C", "2026-10-12T08:00:00"⟩] (some "s1") (some "1234") none none).1.body =
        MarkBody.recorded ∧
      (part001AttendanceMark (some "1234") "2026-10-12" "2026-10-12T10:00:00"
        [⟨"s1", "L", "C", "2026-10-12T08:00:00"⟩] (some "s1") (some "1234") none none).2 =
        { student_id := "s1", lecturer := "external-scanner", course := "Unknown",
          created_at := "2026-10-12T10:00:00" } :: [⟨"s1", "L", "C", "2026-10-12T08:00:00"⟩]) ∧
    indexJsAttendanceMark (some "1234") "2026-10-12T10:00:00"
        [⟨"s1", "L", "C", "2026-10-12T08:00:00"⟩] (some "s1") (some "1234") none =
      (⟨200, MarkBody.recorded⟩,
        { student_id := "s1", lecturer := "external-scanner", course := "Unknown",
          created_at := "2026-10-12T10:00:00" } :: [⟨"s1", "L", "C", "2026-10-12T08:00:00"⟩]) :=
  ⟨(c6_amended.1 (some "1234") "2026-10-12" "2026-10-12T10:00:00"
      [⟨"s1", "L", "C", "2026-10-12T08:00:00"⟩] (some "s1") none none
      (by decide) (by decide)).2.2,
   c6_amended.2 (some "1234") "2026-10-12T10:00:00"
      [⟨"s1", "L", "C", "2026-10-12T08:00:00"⟩] (some "s1") (by decide) (by decide)⟩
